import Mathlib

/-!
Shallow embedding of the Discord auto-typer backend (`backend/server.py`).

The embedding models the session-lifecycle core of the server:

* the Mongo-persisted `AutoTyperSession` record (`DbRecord`),
* the process-local `active_sessions` live handle, a Python dict whose
  keys may be absent (`LiveHandle`, absent keys are `Option.none`),
* the shared `update_session_status` routine,
* the control endpoints (`start/stop/pause/resume/retry/status`),
* the `discord_automation` worker coroutine as a small-step machine
  whose atomic steps are the code blocks delimited by `await`
  suspension points (asyncio's cooperative scheduling means state can
  only be observed or mutated by another task at an `await`), and
* the typing-progress cadence of `send_message_with_typing` as a pure
  function of the message length.

WebSocket sends are modelled as an append-only list of published
events (a publish attempt; actual delivery depends on a connected
client, which no claim observes).  Timestamps (`datetime.utcnow()`)
are modelled by a logical clock that ticks once per machine action.
-/

set_option maxRecDepth 100000

namespace DCTyper

/-- An entry of `failed_messages` as built in `handle_message_failure`
(server.py lines 362-367). -/
structure FailedMsg where
  message : String
  index : Nat
  timestamp : Nat
  error : String
deriving Repr, DecidableEq

/-- A partial-update payload: the dict passed to
`update_session_status` (and to Mongo `$set`).  `none` means the key
is absent from the dict. -/
structure UpdateData where
  status : Option String := none
  messages_sent : Option Nat := none
  messages_failed : Option Nat := none
  current_message_index : Option Nat := none
  current_message : Option String := none
  is_typing : Option Bool := none
  typing_progress : Option Rat := none
  last_error : Option String := none
  retry_count : Option Nat := none
  can_resume : Option Bool := none
deriving Repr, DecidableEq

/-- The live handle `active_sessions[sid]`: a Python dict.
`start_auto_typer_session` initializes only `status`, `messages_sent`,
`messages_failed` (and `task`), so every other key may be absent,
which is modelled by `Option` with `none` = key absent.  The `task`
handle is modelled separately in `ServerState.workers`. -/
structure LiveHandle where
  status : String
  messages_sent : Nat
  messages_failed : Nat
  current_message_index : Option Nat := none
  current_message : Option String := none
  is_typing : Option Bool := none
  typing_progress : Option Rat := none
  failed_messages : Option (List FailedMsg) := none
  last_error : Option String := none
  retry_count : Option Nat := none
  can_resume : Option Bool := none
deriving Repr, DecidableEq

/-- The persisted `AutoTyperSession` pydantic record (all fields carry
model defaults, server.py lines 104-123). -/
structure DbRecord where
  channel_id : String
  messages : List String
  typing_delay : Nat := 1000
  message_delay : Nat := 5000
  status : String := "idle"
  messages_sent : Nat := 0
  messages_failed : Nat := 0
  current_message_index : Nat := 0
  current_message : Option String := none
  is_typing : Bool := false
  typing_progress : Rat := 0
  failed_messages : List FailedMsg := []
  last_error : Option String := none
  retry_count : Nat := 0
  can_resume : Bool := false
  created_at : Nat := 0
  paused_at : Option Nat := none
  resumed_at : Option Nat := none
deriving Repr, DecidableEq

/-- Events published over the per-session WebSocket. -/
inductive Event where
  | session_update (sid : String) (u : UpdateData)
  | typing_update (sid : String) (progress : Rat) (char_index : Nat) (total_chars : Nat)
  | error_notification (sid : String) (error : String) (can_retry : Bool) (msg_index : Option Nat)
  | retry_initiated (sid : String) (retry_count : Nat) (messages_to_retry : Nat)
deriving Repr, DecidableEq

/-- The JSON value returned by a control endpoint. `serverError` is an
unhandled Python exception escaping the endpoint (HTTP 500). -/
inductive Resp where
  | ok (msg : String)
  | err (msg : String)
  | session (r : DbRecord)
  | view (r : DbRecord)
  | serverError (msg : String)
deriving Repr, DecidableEq

/-- Request body of `POST /auto-typer/start` (`AutoTyperSessionCreate`). -/
structure StartReq where
  channel_id : String
  messages : List String
  typing_delay : Nat := 1000
  message_delay : Nat := 5000
deriving Repr, DecidableEq

/-- Environment choices resolved by the external world for one worker:
whether the login wait and the input wait succeed, and whether each
message send succeeds (`outcomes[i]` for message `i`; missing entries
default to success). -/
structure WorkerEnv where
  loginOk : Bool := true
  inputOk : Bool := true
  outcomes : List Bool := []
deriving Repr, DecidableEq

/-- Program counter of the `discord_automation` coroutine.  Each
constructor is a suspension point (`await`); the step out of it runs
the following synchronous block up to the next `await`. -/
inductive WorkerPC where
  /-- start of the coroutine body, before browser launch and the first
  navigation (lines 172-189 up to the first db write). -/
  | launch
  /-- `waiting_for_login` update pending its db write / broadcast. -/
  | wflDb
  /-- suspended in `wait_for_selector` for the login marker (line 194). -/
  | loginWait
  /-- suspended in channel navigation / message-input wait (lines 206-210). -/
  | inputWait
  /-- `running` update pending its db write / broadcast (line 216). -/
  | runningDb
  /-- about to read the initial cursor and enter the while loop (line 222). -/
  | loopEntry
  /-- per-message update of lines 248-253 pending its db write. -/
  | emitDb (i : Nat)
  /-- inside `send_message_with_typing` for message `i` (lines 291-315). -/
  | midSend (i : Nat)
  /-- success bookkeeping of lines 259-264 pending its db write. -/
  | sentDb (i : Nat)
  /-- failure bookkeeping of `handle_message_failure` pending its db write. -/
  | failDb (i : Nat)
  /-- suspended in `asyncio.sleep(message_delay)` (line 271). -/
  | sleep (i : Nat)
  /-- dead code: the paused update of lines 230-235 pending its db write. -/
  | pausedNoteDb (i : Nat)
  /-- dead code: the poll loop of lines 238-239. -/
  | pausedWait (i : Nat)
  /-- the `completed` update of lines 275-279 pending its db write. -/
  | completedDb
  /-- an error update from `handle_session_error` pending its db write. -/
  | errDb
  /-- in the `finally` block, about to `browser.close()` (lines 284-289). -/
  | closing
  /-- coroutine finished. -/
  | dead
deriving Repr, DecidableEq

/-- The model of one `discord_automation` task: its local variables
(`message_index` lives in the pc), the session snapshot it was given,
cancellation and browser-resource bookkeeping. `pending` is the dict
already merged into the live handle by `update_session_status` and
still to be written to the database at the next step. `dispatches`
counts the entries into `send_message_with_typing`. -/
structure WorkerState where
  messages : List String
  typing_delay : Nat
  message_delay : Nat
  env : WorkerEnv
  pc : WorkerPC := .launch
  cancelled : Bool := false
  browserOpen : Bool := false
  closes : Nat := 0
  dispatches : Nat := 0
  pending : Option UpdateData := none
deriving Repr, DecidableEq

/-- Global server state: the `active_sessions` dict, the
`auto_typer_sessions` Mongo collection, the running worker tasks, the
published events and a logical clock. -/
structure ServerState where
  active_sessions : List (String × LiveHandle) := []
  db_sessions : List (String × DbRecord) := []
  workers : List (String × WorkerState) := []
  events : List Event := []
  clock : Nat := 0
deriving Repr, DecidableEq

/-- Dict lookup. -/
def lookup {α : Type} (l : List (String × α)) (k : String) : Option α :=
  (l.find? (fun p => p.1 = k)).map (fun p => p.2)

/-- Dict assignment `l[k] = v` (replaces the first binding or appends). -/
def setEntry {α : Type} (l : List (String × α)) (k : String) (v : α) : List (String × α) :=
  match l with
  | [] => [(k, v)]
  | (k', v') :: rest => if k' = k then (k, v) :: rest else (k', v') :: setEntry rest k v

/-- In-place mutation of the binding of `k`, a no-op when `k` is absent
(this is also Mongo `update_one` on a missing id). -/
def updateEntry {α : Type} (l : List (String × α)) (k : String) (f : α → α) :
    List (String × α) :=
  match l with
  | [] => []
  | (k', v') :: rest => if k' = k then (k, f v') :: rest else (k', v') :: updateEntry rest k f

/-- Merging an update dict into the live dict (server.py lines 325-326:
`for key, value in update_data.items(): active_sessions[sid][key] = value`). -/
def applyLive (h : LiveHandle) (u : UpdateData) : LiveHandle where
  status := u.status.getD h.status
  messages_sent := u.messages_sent.getD h.messages_sent
  messages_failed := u.messages_failed.getD h.messages_failed
  current_message_index :=
    match u.current_message_index with
    | some v => some v
    | none => h.current_message_index
  current_message :=
    match u.current_message with
    | some v => some v
    | none => h.current_message
  is_typing :=
    match u.is_typing with
    | some v => some v
    | none => h.is_typing
  typing_progress :=
    match u.typing_progress with
    | some v => some v
    | none => h.typing_progress
  failed_messages := h.failed_messages
  last_error :=
    match u.last_error with
    | some v => some v
    | none => h.last_error
  retry_count :=
    match u.retry_count with
    | some v => some v
    | none => h.retry_count
  can_resume :=
    match u.can_resume with
    | some v => some v
    | none => h.can_resume

/-- Mongo `update_one({"id": sid}, {"$set": update_data})` applied to a
found record. -/
def applyDb (r : DbRecord) (u : UpdateData) : DbRecord where
  channel_id := r.channel_id
  messages := r.messages
  typing_delay := r.typing_delay
  message_delay := r.message_delay
  status := u.status.getD r.status
  messages_sent := u.messages_sent.getD r.messages_sent
  messages_failed := u.messages_failed.getD r.messages_failed
  current_message_index := u.current_message_index.getD r.current_message_index
  current_message :=
    match u.current_message with
    | some v => some v
    | none => r.current_message
  is_typing := u.is_typing.getD r.is_typing
  typing_progress := u.typing_progress.getD r.typing_progress
  failed_messages := r.failed_messages
  last_error :=
    match u.last_error with
    | some v => some v
    | none => r.last_error
  retry_count := u.retry_count.getD r.retry_count
  can_resume := u.can_resume.getD r.can_resume
  created_at := r.created_at
  paused_at := r.paused_at
  resumed_at := r.resumed_at

/-- `update_session_status` (server.py lines 321-335): when the id has
a live handle, merge the dict into the live handle, `$set` it on the
persisted record, and broadcast a `session_update`; otherwise nothing
happens at all. -/
def update_session_status (s : ServerState) (sid : String) (u : UpdateData) : ServerState :=
  if (lookup s.active_sessions sid).isSome then
    { s with
      active_sessions := updateEntry s.active_sessions sid (fun h => applyLive h u)
      db_sessions := updateEntry s.db_sessions sid (fun r => applyDb r u)
      events := s.events ++ [.session_update sid u] }
  else s

/-- `POST /auto-typer/start` (lines 435-456): build the pydantic record
with defaults, insert it, register a live handle holding only
`status/messages_sent/messages_failed` (+`task`), and spawn the
automation task.  `sid` is the server-generated uuid, `env` the
external world's behaviour for the spawned worker.  No validation of
`messages` is performed. -/
def start_auto_typer_session (s : ServerState) (sid : String) (req : StartReq)
    (env : WorkerEnv) : Resp × ServerState :=
  let record : DbRecord :=
    { channel_id := req.channel_id
      messages := req.messages
      typing_delay := req.typing_delay
      message_delay := req.message_delay
      created_at := s.clock }
  let live : LiveHandle :=
    { status := "starting", messages_sent := 0, messages_failed := 0 }
  let w : WorkerState :=
    { messages := req.messages
      typing_delay := req.typing_delay
      message_delay := req.message_delay
      env := env }
  (Resp.session record,
    { s with
      db_sessions := s.db_sessions ++ [(sid, record)]
      active_sessions := setEntry s.active_sessions sid live
      workers := setEntry s.workers sid w })

/-- `POST /auto-typer/{id}/stop` (lines 458-477): with a live handle,
set the live status to `stopped`, cancel the bound task, persist
`status: stopped`; otherwise report `Session not found`. -/
def stop_auto_typer_session (s : ServerState) (sid : String) : Resp × ServerState :=
  match lookup s.active_sessions sid with
  | some _ =>
    (Resp.ok "Session stopped successfully",
      { s with
        active_sessions := updateEntry s.active_sessions sid
          (fun h => { h with status := "stopped" })
        workers := updateEntry s.workers sid (fun w => { w with cancelled := true })
        db_sessions := updateEntry s.db_sessions sid
          (fun r => { r with status := "stopped" }) })
  | none => (Resp.err "Session not found", s)

/-- `POST /auto-typer/{id}/pause` (lines 479-508): only a live handle
in status `running` is paused; the live dict gets only its `status`
key flipped, the database additionally gets `can_resume` and
`paused_at`, and a broadcast dict is published. -/
def pause_auto_typer_session (s : ServerState) (sid : String) : Resp × ServerState :=
  match lookup s.active_sessions sid with
  | some h =>
    if h.status = "running" then
      (Resp.ok "Session paused successfully",
        { s with
          active_sessions := updateEntry s.active_sessions sid
            (fun h' => { h' with status := "paused" })
          db_sessions := updateEntry s.db_sessions sid
            (fun r => { r with status := "paused", can_resume := true,
                               paused_at := some s.clock })
          events := s.events ++ [.session_update sid
            { status := some "paused", can_resume := some true,
              current_message := some "Session paused by user" }] })
    else (Resp.err "Session is not running", s)
  | none => (Resp.err "Session not found", s)

/-- `POST /auto-typer/{id}/resume` (lines 510-559): a live handle in
status `paused` is flipped back to `running`; with no live handle, a
persisted record with `can_resume` is rehydrated into a fresh live
handle (this time with cursor, failure log and retry count populated)
and a fresh worker is spawned. -/
def resume_auto_typer_session (s : ServerState) (sid : String) (env : WorkerEnv) :
    Resp × ServerState :=
  match lookup s.active_sessions sid with
  | some h =>
    if h.status = "paused" then
      (Resp.ok "Session resumed successfully",
        { s with
          active_sessions := updateEntry s.active_sessions sid
            (fun h' => { h' with status := "running" })
          db_sessions := updateEntry s.db_sessions sid
            (fun r => { r with status := "running", resumed_at := some s.clock })
          events := s.events ++ [.session_update sid
            { status := some "running",
              current_message := some "Session resumed by user" }] })
    else (Resp.err "Session is not paused", s)
  | none =>
    match lookup s.db_sessions sid with
    | some r =>
      if r.can_resume then
        let live : LiveHandle :=
          { status := "running"
            messages_sent := r.messages_sent
            messages_failed := r.messages_failed
            current_message_index := some r.current_message_index
            failed_messages := some r.failed_messages
            retry_count := some r.retry_count }
        let w : WorkerState :=
          { messages := r.messages
            typing_delay := r.typing_delay
            message_delay := r.message_delay
            env := env }
        (Resp.ok "Session resumed successfully",
          { s with
            active_sessions := setEntry s.active_sessions sid live
            workers := setEntry s.workers sid w })
      else (Resp.err "Session not found or cannot be resumed", s)
    | none => (Resp.err "Session not found or cannot be resumed", s)

/-- `POST /auto-typer/{id}/retry` (lines 561-595).  Note the order of
operations in the source: the live `failed_messages` list is cleared
(line 572) before `['retry_count'] += 1` (line 573); for a live handle
created by `start` the `retry_count` key was never initialized, so
that line raises `KeyError` (an HTTP 500) after the clear, and neither
the increment, the db write nor the event happen. -/
def retry_failed_messages (s : ServerState) (sid : String) : Resp × ServerState :=
  match lookup s.active_sessions sid with
  | none => (Resp.err "Session not found", s)
  | some h =>
    let failed := h.failed_messages.getD []
    if failed.isEmpty then (Resp.err "No failed messages to retry", s)
    else
      let cleared := { s with
        active_sessions := updateEntry s.active_sessions sid
          (fun h' => { h' with failed_messages := some [] }) }
      match h.retry_count with
      | none => (Resp.serverError "KeyError: retry_count", cleared)
      | some rc =>
        (Resp.ok ("Retrying " ++ toString failed.length ++ " failed messages"),
          { cleared with
            active_sessions := updateEntry cleared.active_sessions sid
              (fun h' => { h' with retry_count := some (rc + 1) })
            db_sessions := updateEntry cleared.db_sessions sid
              (fun r => { r with retry_count := rc + 1, failed_messages := [] })
            events := cleared.events ++
              [.retry_initiated sid (rc + 1) failed.length] })

/-- `GET /auto-typer/{id}/status` (lines 597-611): fetch the persisted
record; when a live handle exists, override exactly `messages_sent`,
`messages_failed` and `status` with the live values.  Read-only. -/
def get_auto_typer_session_status (s : ServerState) (sid : String) : Resp :=
  match lookup s.db_sessions sid with
  | none => Resp.err "Session not found"
  | some r =>
    match lookup s.active_sessions sid with
    | some h =>
      Resp.view { r with
        messages_sent := h.messages_sent
        messages_failed := h.messages_failed
        status := h.status }
    | none => Resp.view r

/-- `chars_per_update = max(1, len(message) // 10)` (server.py line 299). -/
def chars_per_update (len : Nat) : Nat := max 1 (len / 10)

/-- The character positions at which `send_message_with_typing` emits a
`typing_update`: every `i` with `i % chars_per_update == 0 or i == len(message)-1`
(line 305), for a message of length `len`. -/
def typing_update_indices (len : Nat) : List Nat :=
  (List.range len).filter (fun i => i % chars_per_update len = 0 ∨ i = len - 1)

/-- Number of typing-progress updates emitted for one message of length `len`. -/
def typing_update_count (len : Nat) : Nat := (typing_update_indices len).length

/-- The `typing_update` events emitted while typing a message of length
`len`, with `progress = ((i + 1) / len) * 100` (lines 306-311). -/
def typing_update_events (sid : String) (len : Nat) : List Event :=
  (typing_update_indices len).map
    (fun i => Event.typing_update sid ((((i + 1 : Nat)) : Rat) / (len : Rat) * 100) (i + 1) len)

/-- The `finally` of lines 284-289 run on unwind: close the browser if
it was launched.  `except Exception` (line 281) does not catch
`asyncio.CancelledError`, so a cancelled worker reaches this without
any further status write. -/
def teardownWorker (s : ServerState) (sid : String) (w : WorkerState) : ServerState :=
  let w' : WorkerState :=
    { w with pc := .dead, browserOpen := false,
             closes := w.closes + (if w.browserOpen then 1 else 0), pending := none }
  { s with workers := setEntry s.workers sid w' }

/-- The synchronous live half of an `update_session_status` call (lines
323-326 run before the first `await` inside it): merge `u` into the live
handle and record `u` as pending for the db write of the next step. -/
def liveUpdateStep (s : ServerState) (sid : String) (w : WorkerState) (u : UpdateData)
    (pc : WorkerPC) : ServerState :=
  let s1 :=
    if (lookup s.active_sessions sid).isSome then
      { s with active_sessions := updateEntry s.active_sessions sid (fun h => applyLive h u) }
    else s
  { s1 with workers := setEntry s1.workers sid { w with pc := pc, pending := some u } }

/-- The db write and broadcast of a pending `update_session_status`
call (lines 328-335), then continue as `w'`. -/
def dbUpdateStep (s : ServerState) (sid : String) (w : WorkerState) (w' : WorkerState) :
    ServerState :=
  match w.pending with
  | some u =>
    { s with db_sessions := updateEntry s.db_sessions sid (fun r => applyDb r u)
             events := s.events ++ [.session_update sid u]
             workers := setEntry s.workers sid w' }
  | none => { s with workers := setEntry s.workers sid w' }

/-- `handle_session_error` (lines 337-352): live half of the error
update; `retry_count` is read defensively with `.get(..., 0)`. -/
def errorBlock (s : ServerState) (sid : String) (w : WorkerState) (h : LiveHandle)
    (msg : String) : ServerState :=
  liveUpdateStep s sid w
    { status := some "error", last_error := some msg, can_resume := some true,
      retry_count := some (h.retry_count.getD 0), is_typing := some false }
    .errDb

/-- Lines 245-253: read `messages[i]` and run the live half of the
"current message" update of the iteration body. -/
def emitBlock (s : ServerState) (sid : String) (w : WorkerState) (i : Nat) : ServerState :=
  liveUpdateStep s sid w
    { current_message := some (w.messages.getD i ""), current_message_index := some i,
      is_typing := some true, typing_progress := some 0 }
    (.emitDb i)

/-- The loop head (lines 225-253, 275-279): one synchronous block from
re-entering the `while` test to the next `await`.  The `paused` test of
line 229 re-reads the status inside the same block — no `await`
separates it from the `while` test, so it can never see `paused` when
the test just saw `running` (dead code, kept for fidelity).  When the
`while` test fails (status no longer `running`, or queue exhausted)
control falls through to the live half of the `completed` update. -/
def loopHead (s : ServerState) (sid : String) (w : WorkerState) (h : LiveHandle) (i : Nat) :
    ServerState :=
  if h.status = "running" ∧ i < w.messages.length then
    if h.status = "paused" then
      liveUpdateStep s sid w
        { status := some "paused", current_message := some "Session paused",
          can_resume := some true, current_message_index := some i }
        (.pausedNoteDb i)
    else emitBlock s sid w i
  else
    liveUpdateStep s sid w
      { status := some "completed",
        current_message := some "All messages sent successfully",
        is_typing := some false }
      .completedDb

/-- One scheduling step of the `discord_automation` coroutine (lines
166-289) for session `sid`: runs the synchronous block from the
worker's current suspension point to the next one.  asyncio only
delivers a pending cancellation at a suspension point, where it
unwinds straight to the `finally`. -/
def discord_automation_step (s : ServerState) (sid : String) : ServerState :=
  match lookup s.workers sid with
  | none => s
  | some w =>
    if w.pc = .dead then s
    else if w.cancelled then teardownWorker s sid w
    else
      match lookup s.active_sessions sid with
      | none => s
      | some h =>
        match w.pc with
        | .launch =>
          liveUpdateStep s sid { w with browserOpen := true }
            { status := some "waiting_for_login",
              current_message := some "Waiting for Discord login..." }
            .wflDb
        | .wflDb => dbUpdateStep s sid w { w with pc := .loginWait, pending := none }
        | .loginWait =>
          if w.env.loginOk then
            { s with workers := setEntry s.workers sid { w with pc := .inputWait } }
          else errorBlock s sid w h "Discord login timeout - please login manually"
        | .inputWait =>
          if w.env.inputOk then
            liveUpdateStep s sid w
              { status := some "running",
                current_message := some "Session started successfully" }
              .runningDb
          else errorBlock s sid w h "Could not find message input - check channel permissions"
        | .runningDb => dbUpdateStep s sid w { w with pc := .loopEntry, pending := none }
        | .loopEntry => loopHead s sid w h (h.current_message_index.getD 0)
        | .emitDb i =>
          -- after the broadcast, the same block enters send_message_with_typing
          dbUpdateStep s sid w
            { w with pc := .midSend i, pending := none, dispatches := w.dispatches + 1 }
        | .midSend i =>
          let msg := w.messages.getD i ""
          if w.env.outcomes.getD i true then
            -- lines 301-315 then 257-264: typing updates, Enter, success bookkeeping
            let s1 := { s with events := s.events ++ typing_update_events sid msg.length }
            liveUpdateStep s1 sid w
              { messages_sent := some (h.messages_sent + 1),
                is_typing := some false, typing_progress := some 100 }
              (.sentDb i)
          else
            -- handle_message_failure (lines 354-372): direct live mutations,
            -- then the live half of the messages_failed update
            let entry : FailedMsg :=
              { message := msg, index := i, timestamp := s.clock,
                error := "Failed to send message" }
            let u : UpdateData :=
              { messages_failed := some (h.messages_failed + 1), is_typing := some false }
            let s1 := { s with
              active_sessions := updateEntry s.active_sessions sid
                (fun h' => applyLive
                  { h' with failed_messages := some (h'.failed_messages.getD [] ++ [entry]) } u) }
            let w' : WorkerState := { w with pc := .failDb i, pending := some u }
            { s1 with workers := setEntry s1.workers sid w' }
        | .sentDb i => dbUpdateStep s sid w { w with pc := .sleep i, pending := none }
        | .failDb i =>
          -- db write + broadcast, then the error notification of lines 375-379
          let msg := w.messages.getD i ""
          let note : Event :=
            .error_notification sid ("Failed to send message: " ++ msg.take 50 ++ "...")
              true (some i)
          match w.pending with
          | some u =>
            { s with db_sessions := updateEntry s.db_sessions sid (fun r => applyDb r u)
                     events := s.events ++ [.session_update sid u, note]
                     workers := setEntry s.workers sid { w with pc := .sleep i, pending := none } }
          | none =>
            { s with events := s.events ++ [note]
                     workers := setEntry s.workers sid { w with pc := .sleep i, pending := none } }
        | .sleep i => loopHead s sid w h (i + 1)
        | .pausedNoteDb i => dbUpdateStep s sid w { w with pc := .pausedWait i, pending := none }
        | .pausedWait i =>
          -- lines 238-243 (unreachable in the source, see loopHead)
          if h.status = "paused" then s
          else if h.status ≠ "running" then
            liveUpdateStep s sid w
              { status := some "completed",
                current_message := some "All messages sent successfully",
                is_typing := some false }
              .completedDb
          else emitBlock s sid w i
        | .completedDb => dbUpdateStep s sid w { w with pc := .closing, pending := none }
        | .errDb =>
          let note : Event :=
            .error_notification sid
              ((w.pending.bind (fun u => u.last_error)).getD "") true none
          match w.pending with
          | some u =>
            { s with db_sessions := updateEntry s.db_sessions sid (fun r => applyDb r u)
                     events := s.events ++ [.session_update sid u, note]
                     workers := setEntry s.workers sid { w with pc := .closing, pending := none } }
          | none =>
            { s with workers := setEntry s.workers sid { w with pc := .closing, pending := none } }
        | .closing =>
          let w' : WorkerState :=
            { w with pc := .dead, browserOpen := false,
                     closes := w.closes + (if w.browserOpen then 1 else 0) }
          { s with workers := setEntry s.workers sid w' }
        | .dead => s

/-- An interleaving atom: a control-endpoint call or one scheduling
step of one worker. -/
inductive Action where
  | start (sid : String) (req : StartReq) (env : WorkerEnv)
  | stop (sid : String)
  | pause (sid : String)
  | resume (sid : String) (env : WorkerEnv)
  | retry (sid : String)
  | query (sid : String)
  | workerStep (sid : String)
deriving Repr, DecidableEq

/-- Apply one action to the server state (the logical clock ticks once
per action). -/
def stepAction (s : ServerState) (a : Action) : ServerState :=
  let s' :=
    match a with
    | .start sid req env => (start_auto_typer_session s sid req env).2
    | .stop sid => (stop_auto_typer_session s sid).2
    | .pause sid => (pause_auto_typer_session s sid).2
    | .resume sid env => (resume_auto_typer_session s sid env).2
    | .retry sid => (retry_failed_messages s sid).2
    | .query _ => s
    | .workerStep sid => discord_automation_step s sid
  { s' with clock := s'.clock + 1 }

/-- Run a schedule of actions. -/
def run (s : ServerState) (acts : List Action) : ServerState := acts.foldl stepAction s

/-- The view of the session fields written by the dispatch loop, as
seen identically in the live handle and in the persisted record (the
worker writes both through `update_session_status`). -/
structure LoopView where
  status : String
  messages_sent : Nat
  messages_failed : Nat
  current_message_index : Nat
  current_message : Option String
  is_typing : Bool
deriving Repr, DecidableEq

/-- One iteration body of the dispatch loop (lines 245-272) for
message `m` at cursor `i` with send outcome `ok`. -/
def dispatch_iteration (m : String) (i : Nat) (ok : Bool) (st : LoopView) : LoopView :=
  let st1 := { st with current_message := some m, current_message_index := i, is_typing := true }
  if ok then { st1 with messages_sent := st1.messages_sent + 1, is_typing := false }
  else { st1 with messages_failed := st1.messages_failed + 1, is_typing := false }

/-- Sequential big-step rendering of the dispatch loop plus its final
`completed` update (lines 221-279), for a schedule in which no control
call runs concurrently with the worker: the status stays `running`
throughout, so the loop consumes the whole remaining queue `pending`
(the suffix of the message list from cursor `i`), and the final update
sets `status` to `completed` without touching the cursor. -/
def dispatch_loop (oks : Nat → Bool) : List String → Nat → LoopView → LoopView
  | [], _, st =>
    { st with status := "completed",
              current_message := some "All messages sent successfully",
              is_typing := false }
  | m :: rest, i, st => dispatch_loop oks rest (i + 1) (dispatch_iteration m i (oks i) st)

/-- A start request with a two-message queue. -/
def reqAB : StartReq := { channel_id := "c", messages := ["A", "B"] }

/-- A start request with a single-message queue. -/
def reqA : StartReq := { channel_id := "c", messages := ["A"] }

/-- A start request with an empty queue. -/
def reqEmpty : StartReq := { channel_id := "c", messages := [] }

/-- Schedule: start session s1 on queue `["A","B"]` and let its worker
run undisturbed for nine steps, which takes it through startup and the
whole first iteration (message "A" sent, cursor written as 0) into the
inter-message sleep. -/
def runningTrace : List Action :=
  Action.start "s1" reqAB {} :: List.replicate 9 (Action.workerStep "s1")

/-- Schedule: pause s1 while its worker sleeps after sending "A", then
let the worker run on (it wakes, sees a non-running status at the loop
head, exits the loop and terminates). -/
def pauseResumeTrace : List Action :=
  runningTrace ++ Action.pause "s1" :: List.replicate 3 (Action.workerStep "s1")

/-- Schedule: a single-message session running to termination with no
control interference (12 worker steps reach the dead state). -/
def fullRunTrace : List Action :=
  Action.start "s1" reqA {} :: List.replicate 12 (Action.workerStep "s1")

/-- Schedule: a single-message session whose only send fails, run to
the point where the worker has recorded the failure and performed the
live half of its final `completed` update. -/
def failedRunTrace : List Action :=
  Action.start "s1" reqA { outcomes := [false] } :: List.replicate 10 (Action.workerStep "s1")

/-- Schedule: an empty-queue session run to worker termination. -/
def emptyRunTrace : List Action :=
  Action.start "s1" reqEmpty {} :: List.replicate 8 (Action.workerStep "s1")

/-- The `failed_messages` entry produced by `failedRunTrace` (the
logical clock reads 8 when the send fails). -/
def failedEntryA : FailedMsg :=
  { message := "A", index := 0, timestamp := 8, error := "Failed to send message" }

/-- Projection: the `failed_messages` field of a status view. -/
def viewFailed : Resp → Option (List FailedMsg)
  | .view r => some r.failed_messages
  | _ => none

/-- The server state reached by `runningTrace` (worker of s1 asleep
between messages "A" and "B", status `running`). -/
def preStopState : ServerState := run {} runningTrace

/-- State of session `sid` once a stop has been observed: live status
`stopped`, bound task cancelled with its dispatch count frozen at `d`,
browser either still open with its release pending, or already
released exactly once; persisted status `stopped`. -/
def StoppedInv (sid : String) (d : Nat) (s : ServerState) : Prop :=
  (∃ h : LiveHandle, lookup s.active_sessions sid = some h ∧ h.status = "stopped")
  ∧ (∃ w : WorkerState, lookup s.workers sid = some w ∧ w.cancelled = true
      ∧ w.dispatches = d
      ∧ ((w.pc ≠ WorkerPC.dead ∧ w.browserOpen = true ∧ w.closes = 0)
        ∨ (w.pc = WorkerPC.dead ∧ w.browserOpen = false ∧ w.closes = 1)))
  ∧ (∀ r : DbRecord, lookup s.db_sessions sid = some r → r.status = "stopped")

/-- As `StoppedInv`, with the worker already torn down: the browser
resource has been released exactly once. -/
def StoppedDead (sid : String) (d : Nat) (s : ServerState) : Prop :=
  (∃ h : LiveHandle, lookup s.active_sessions sid = some h ∧ h.status = "stopped")
  ∧ (∃ w : WorkerState, lookup s.workers sid = some w ∧ w.cancelled = true
      ∧ w.dispatches = d ∧ w.pc = WorkerPC.dead ∧ w.browserOpen = false ∧ w.closes = 1)
  ∧ (∀ r : DbRecord, lookup s.db_sessions sid = some r → r.status = "stopped")

/-- The session id an action addresses. -/
def actionSid : Action → String
  | .start sid _ _ => sid
  | .stop sid => sid
  | .pause sid => sid
  | .resume sid _ => sid
  | .retry sid => sid
  | .query sid => sid
  | .workerStep sid => sid

/-- `s'` agrees with `s` on everything the model tracks about session
`sid`. -/
def FrameAt (sid : String) (s s' : ServerState) : Prop :=
  lookup s'.active_sessions sid = lookup s.active_sessions sid
  ∧ lookup s'.db_sessions sid = lookup s.db_sessions sid
  ∧ lookup s'.workers sid = lookup s.workers sid

/-- A `LoopView` as it stands when the dispatch loop is entered right
after a fresh start: status `running`, zero counters. -/
def initialView : LoopView :=
  { status := "running", messages_sent := 0, messages_failed := 0,
    current_message_index := 0, current_message := none, is_typing := false }

/-- The live handle of s1 in `preStopState`. -/
def preStopLive : LiveHandle :=
  { status := "running", messages_sent := 1, messages_failed := 0,
    current_message_index := some 0, current_message := some "A",
    is_typing := some false, typing_progress := some 100 }

/-- The worker state of s1 in `preStopState`: asleep between messages,
browser open, one dispatch performed. -/
def preStopWorker : WorkerState :=
  { messages := ["A", "B"], typing_delay := 1000, message_delay := 5000,
    env := {}, pc := WorkerPC.sleep 0, cancelled := false,
    browserOpen := true, closes := 0, dispatches := 1 }

/-- The state reached by `failedRunTrace`. -/
def failedRunState : ServerState := run {} failedRunTrace

/-- The live handle of s1 in `failedRunState`: the failure was logged
in the live dict only. -/
def failedRunLive : LiveHandle :=
  { status := "completed", messages_sent := 0, messages_failed := 1,
    current_message_index := some 0,
    current_message := some "All messages sent successfully",
    is_typing := some false, typing_progress := some 0,
    failed_messages := some [failedEntryA] }

/-- The persisted record of s1 in `failedRunState` (the worker never
writes `failed_messages` to the database). -/
def failedRunDb : DbRecord :=
  { channel_id := "c", messages := ["A"], status := "running",
    messages_failed := 1, current_message := some "A" }

/-- A state with a persisted record holding a failed message but no
live handle (as after a process restart). -/
def persistedOnlyState : ServerState :=
  { db_sessions := [("s1", { channel_id := "c", messages := ["A"],
                             failed_messages := [failedEntryA] })] }

/-- A state with one live `running` session and its persisted record,
used to exercise the control endpoints at a concrete input. -/
def runningPairState : ServerState :=
  { active_sessions := [("s1",
      { status := "running", messages_sent := 2, messages_failed := 0 })]
    db_sessions := [("s1",
      { channel_id := "c", messages := ["A", "B", "C"], status := "running",
        messages_sent := 1 })]
    clock := 5 }

theorem lookup_setEntry_self {α : Type} (l : List (String × α)) (k : String) (v : α) :
    lookup (setEntry l k v) k = some v := by
  induction l with
  | nil => simp [lookup, setEntry]
  | cons p rest ih =>
    by_cases h : p.1 = k
    · simp [lookup, setEntry, h]
    · simpa [lookup, setEntry, h] using ih

theorem lookup_setEntry_ne {α : Type} (l : List (String × α)) (k k' : String) (v : α)
    (hne : k' ≠ k) : lookup (setEntry l k v) k' = lookup l k' := by
  induction l with
  | nil => simp [lookup, setEntry, Ne.symm hne]
  | cons p rest ih =>
    by_cases h : p.1 = k
    · simp [lookup, setEntry, h, Ne.symm hne]
    · by_cases h' : p.1 = k'
      · simp [lookup, setEntry, h, h', hne]
      · simpa [lookup, setEntry, h, h'] using ih

theorem lookup_updateEntry_self {α : Type} (l : List (String × α)) (k : String) (f : α → α) :
    lookup (updateEntry l k f) k = (lookup l k).map f := by
  induction l with
  | nil => simp [lookup, updateEntry]
  | cons p rest ih =>
    by_cases h : p.1 = k
    · simp [lookup, updateEntry, h]
    · simpa [lookup, updateEntry, h] using ih

theorem lookup_updateEntry_ne {α : Type} (l : List (String × α)) (k k' : String) (f : α → α)
    (hne : k' ≠ k) : lookup (updateEntry l k f) k' = lookup l k' := by
  induction l with
  | nil => simp [lookup, updateEntry]
  | cons p rest ih =>
    by_cases h : p.1 = k
    · simp [lookup, updateEntry, h, Ne.symm hne]
    · by_cases h' : p.1 = k'
      · simp [lookup, updateEntry, h, h', hne]
      · simpa [lookup, updateEntry, h, h'] using ih

theorem lookup_append_of_some {α : Type} (l m : List (String × α)) (k : String) (v : α)
    (h : lookup l k = some v) : lookup (l ++ m) k = some v := by
  induction l with
  | nil => simp [lookup] at h
  | cons p rest ih =>
    by_cases hp : p.1 = k
    · unfold lookup at h ⊢
      rw [List.find?_cons_of_pos _ (by simpa using hp)] at h
      rw [List.cons_append, List.find?_cons_of_pos _ (by simpa using hp)]
      exact h
    · have h2 : lookup rest k = some v := by
        unfold lookup at h ⊢
        rwa [List.find?_cons_of_neg _ (by simpa using hp)] at h
      unfold lookup
      rw [List.cons_append, List.find?_cons_of_neg _ (by simpa using hp)]
      exact ih h2

theorem dispatch_loop_status (oks : Nat → Bool) :
    ∀ (pending : List String) (i : Nat) (st : LoopView),
      (dispatch_loop oks pending i st).status = "completed" := by
  intro pending
  induction pending with
  | nil => intro i st; rfl
  | cons m rest ih => intro i st; exact ih (i + 1) _

theorem dispatch_loop_cursor (oks : Nat → Bool) :
    ∀ (pending : List String) (i : Nat) (st : LoopView), pending ≠ [] →
      (dispatch_loop oks pending i st).current_message_index = i + pending.length - 1 := by
  intro pending
  induction pending with
  | nil => intro i st hne; exact absurd rfl hne
  | cons m rest ih =>
    intro i st _
    cases rest with
    | nil =>
      cases hok : oks i <;> simp [dispatch_loop, dispatch_iteration, hok]
    | cons m2 r2 =>
      rw [dispatch_loop, ih (i + 1) _ (by simp)]
      simp
      omega

/-- C1 (the code evaluated at the failing input): with queue
`["A","B"]`, pausing while the worker sleeps after sending "A"
succeeds; but when the worker wakes it exits the dispatch loop (the
`while` head requires status `running`, and the in-loop pause
checkpoint of lines 229-243 is unreachable because no `await`
separates it from that head), marks the session `completed` and
terminates.  The subsequent resume is rejected with "Session is not
paused" and message "B" (index 1) is never attempted — the dispatch
count stays 1 — contradicting the claimed resume-at-cursor behaviour. -/
theorem c1_pause_resume_cursor_bug :
    (pause_auto_typer_session preStopState "s1").1 = Resp.ok "Session paused successfully"
    ∧ (lookup (run {} pauseResumeTrace).active_sessions "s1").map (fun h => h.status)
        = some "completed"
    ∧ (lookup (run {} pauseResumeTrace).db_sessions "s1").map (fun r => r.status)
        = some "completed"
    ∧ (resume_auto_typer_session (run {} pauseResumeTrace) "s1" {}).1
        = Resp.err "Session is not paused"
    ∧ (lookup (run {} pauseResumeTrace).workers "s1").map (fun w => w.dispatches)
        = some 1 := by
  decide

/-- C2 (counterexample): a full, uninterrupted, fully successful run
of the one-message queue `["A"]` ends with status `completed` while
the persisted cursor reads 0, not `len(messages) = 1`: the worker
never writes the queue length into `current_message_index`. -/
theorem c2_completed_cursor_counterexample :
    (lookup (run {} fullRunTrace).db_sessions "s1").map
        (fun r => (r.status, r.current_message_index, r.messages.length))
      = some ("completed", 0, 1)
    ∧ (0 : Nat) ≠ 1 := by
  decide

/-- C2 (amended): when the dispatch loop consumes a non-empty queue to
completion (no control interference), the session ends `completed`
with the cursor equal to `len(messages) - 1` — the index of the last
message whose processing began — never `len(messages)`. -/
theorem c2_completed_cursor_amended (oks : Nat → Bool) (msgs : List String)
    (hne : msgs ≠ []) :
    (dispatch_loop oks msgs 0 initialView).status = "completed"
    ∧ (dispatch_loop oks msgs 0 initialView).current_message_index = msgs.length - 1 := by
  refine ⟨dispatch_loop_status oks msgs 0 _, ?_⟩
  have h := dispatch_loop_cursor oks msgs 0 initialView hne
  omega

theorem c2_completed_cursor_amended_witness :
    (dispatch_loop (fun _ => true) ["A"] 0 initialView).status = "completed"
    ∧ (dispatch_loop (fun _ => true) ["A"] 0 initialView).current_message_index = 0 :=
  c2_completed_cursor_amended (fun _ => true) ["A"] (by simp)

/-- C3 (counterexample): `start` with an empty message queue does not
fail and is not rejected: it returns the created session payload,
inserts a persisted record, registers a live handle and spawns a
worker. -/
theorem c3_empty_queue_counterexample :
    (start_auto_typer_session {} "s1" reqEmpty {}).1 =
      Resp.session { channel_id := "c", messages := [] }
    ∧ (lookup (start_auto_typer_session {} "s1" reqEmpty {}).2.db_sessions "s1").isSome = true
    ∧ (lookup (start_auto_typer_session {} "s1" reqEmpty {}).2.active_sessions "s1").isSome = true
    ∧ (lookup (start_auto_typer_session {} "s1" reqEmpty {}).2.workers "s1").isSome = true := by
  decide

/-- C3 (amended): `start` with an empty message queue is accepted: the
session record is created and persisted, a live handle is registered
and a worker is launched; the worker finds the queue exhausted at its
first loop head and terminates the session as `completed`, having
dispatched nothing. -/
theorem c3_empty_queue_amended :
    (lookup (run {} emptyRunTrace).active_sessions "s1").map (fun h => h.status)
      = some "completed"
    ∧ (lookup (run {} emptyRunTrace).db_sessions "s1").map (fun r => r.status)
      = some "completed"
    ∧ (lookup (run {} emptyRunTrace).workers "s1").map (fun w => (w.pc, w.dispatches))
      = some (WorkerPC.dead, 0) := by
  decide

/-- C5 (the code evaluated at the failing input): a session started
via `start` whose only message failed has a live failure log but no
`retry_count` key in its live dict; `retry` then clears the live
failure log and raises `KeyError: retry_count` (HTTP 500) before the
increment, the db write and the `retry_initiated` event — so the retry
count is not incremented and nothing is persisted or published. -/
theorem c5_retry_keyerror_bug :
    (lookup failedRunState.active_sessions "s1").map
        (fun h => (h.failed_messages, h.retry_count))
      = some (some [failedEntryA], none)
    ∧ (retry_failed_messages failedRunState "s1").1 = Resp.serverError "KeyError: retry_count"
    ∧ (lookup (retry_failed_messages failedRunState "s1").2.active_sessions "s1").map
        (fun h => (h.failed_messages, h.retry_count))
      = some (some [], none)
    ∧ (retry_failed_messages failedRunState "s1").2.db_sessions = failedRunState.db_sessions
    ∧ (retry_failed_messages failedRunState "s1").2.events = failedRunState.events := by
  decide

/-- C10: `retry` consults only the in-process registry: for an id with
no live handle it reports the not-found error and leaves the whole
server state unchanged, even when the persisted record for that id
holds failed messages. -/
theorem c10_retry_registry_only (s : ServerState) (sid : String) (r : DbRecord)
    (hl : lookup s.active_sessions sid = none)
    (hr : lookup s.db_sessions sid = some r) (hf : r.failed_messages ≠ []) :
    retry_failed_messages s sid = (Resp.err "Session not found", s) := by
  simp [retry_failed_messages, hl]

theorem c10_retry_registry_only_witness :
    retry_failed_messages persistedOnlyState "s1"
      = (Resp.err "Session not found", persistedOnlyState) :=
  c10_retry_registry_only persistedOnlyState "s1"
    { channel_id := "c", messages := ["A"], failed_messages := [failedEntryA] }
    (by decide) (by decide) (by decide)

/-- C6: `pause` on a session with a live handle fails with the
not-running error and mutates nothing unless the live status is
`running`; when it is `running`, it flips the live status to `paused`,
persists `status/can_resume/paused_at` on the record, and publishes a
session update. -/
theorem c6_pause_preconditions (s : ServerState) (sid : String) (h : LiveHandle)
    (hl : lookup s.active_sessions sid = some h) :
    (h.status ≠ "running" →
      pause_auto_typer_session s sid = (Resp.err "Session is not running", s))
    ∧ (h.status = "running" →
        (pause_auto_typer_session s sid).1 = Resp.ok "Session paused successfully"
        ∧ lookup (pause_auto_typer_session s sid).2.active_sessions sid =
            some { h with status := "paused" }
        ∧ (∀ r : DbRecord, lookup s.db_sessions sid = some r →
            lookup (pause_auto_typer_session s sid).2.db_sessions sid =
              some { r with status := "paused", can_resume := true,
                            paused_at := some s.clock })
        ∧ (pause_auto_typer_session s sid).2.events = s.events ++
            [Event.session_update sid
              { status := some "paused", can_resume := some true,
                current_message := some "Session paused by user" }]) := by
  constructor
  · intro hns
    simp [pause_auto_typer_session, hl, hns]
  · intro hrun
    refine ⟨?_, ?_, ?_, ?_⟩
    · simp [pause_auto_typer_session, hl, hrun]
    · simp [pause_auto_typer_session, hl, hrun, lookup_updateEntry_self]
    · intro r hr
      simp [pause_auto_typer_session, hl, hrun, lookup_updateEntry_self, hr]
    · simp [pause_auto_typer_session, hl, hrun]

theorem c6_pause_preconditions_witness :
    (pause_auto_typer_session runningPairState "s1").1 = Resp.ok "Session paused successfully"
    ∧ lookup (pause_auto_typer_session runningPairState "s1").2.active_sessions "s1" =
        some { status := "paused", messages_sent := 2, messages_failed := 0 }
    ∧ lookup (pause_auto_typer_session runningPairState "s1").2.db_sessions "s1" =
        some { channel_id := "c", messages := ["A", "B", "C"], status := "paused",
               messages_sent := 1, can_resume := true, paused_at := some 5 } := by
  have hc := (c6_pause_preconditions runningPairState "s1"
      { status := "running", messages_sent := 2, messages_failed := 0 } (by decide)).2 rfl
  exact ⟨hc.1, hc.2.1, hc.2.2.1
    { channel_id := "c", messages := ["A", "B", "C"], status := "running",
      messages_sent := 1 } (by decide)⟩

/-- C7 (counterexample): in `failedRunState` the live handle holds the
failure log `[failedEntryA]` while the durable record holds `[]` (the
worker never persists `failed_messages`); the status view returns the
durable `[]`, so it is not the case that every live value overrides
the corresponding durable value. -/
theorem c7_status_merge_counterexample :
    (lookup failedRunState.active_sessions "s1").map (fun h => h.failed_messages)
      = some (some [failedEntryA])
    ∧ viewFailed (get_auto_typer_session_status failedRunState "s1") = some []
    ∧ ([] : List FailedMsg) ≠ [failedEntryA] := by
  decide

/-- C7 (amended): `status(id)` returns the not-found error for an id
with no persisted record; for a known id it returns the durable record
with exactly `messages_sent`, `messages_failed` and `status`
overridden by the live handle when one exists; every other field comes
from the durable record even when the live handle holds a different
value. -/
theorem c7_status_merge_amended (s : ServerState) (sid : String) :
    (lookup s.db_sessions sid = none →
      get_auto_typer_session_status s sid = Resp.err "Session not found")
    ∧ (∀ (r : DbRecord) (h : LiveHandle),
        lookup s.db_sessions sid = some r → lookup s.active_sessions sid = some h →
        get_auto_typer_session_status s sid =
          Resp.view { r with messages_sent := h.messages_sent,
                             messages_failed := h.messages_failed,
                             status := h.status })
    ∧ (∀ r : DbRecord, lookup s.db_sessions sid = some r →
        lookup s.active_sessions sid = none →
        get_auto_typer_session_status s sid = Resp.view r) := by
  refine ⟨?_, ?_, ?_⟩
  · intro hd; simp [get_auto_typer_session_status, hd]
  · intro r h hd hl; simp [get_auto_typer_session_status, hd, hl]
  · intro r hd hl; simp [get_auto_typer_session_status, hd, hl]

theorem c7_status_merge_amended_witness :
    get_auto_typer_session_status failedRunState "s1" =
      Resp.view { failedRunDb with messages_sent := failedRunLive.messages_sent,
                                   messages_failed := failedRunLive.messages_failed,
                                   status := failedRunLive.status } :=
  (c7_status_merge_amended failedRunState "s1").2.1 failedRunDb failedRunLive
    (by decide) (by decide)

/-- C9: `update_session_status` is a total no-op when the id has no
live handle (no live write, no db write, no event); otherwise exactly
the keys present in the update dict are written — with the given
values, to the live handle and to the persisted record — all other
fields of both are unchanged, other sessions are untouched, and one
`session_update` event is published. -/
theorem c9_update_session_status_frame (s : ServerState) (sid : String) (u : UpdateData) :
    (lookup s.active_sessions sid = none → update_session_status s sid u = s)
    ∧ (∀ h : LiveHandle, lookup s.active_sessions sid = some h →
        lookup (update_session_status s sid u).active_sessions sid = some (applyLive h u)
        ∧ lookup (update_session_status s sid u).db_sessions sid
            = (lookup s.db_sessions sid).map (fun r => applyDb r u)
        ∧ (update_session_status s sid u).events = s.events ++ [Event.session_update sid u]
        ∧ (update_session_status s sid u).workers = s.workers
        ∧ (∀ sid', sid' ≠ sid →
            lookup (update_session_status s sid u).active_sessions sid'
              = lookup s.active_sessions sid'
            ∧ lookup (update_session_status s sid u).db_sessions sid'
              = lookup s.db_sessions sid'))
    ∧ (∀ h : LiveHandle,
        (u.status = none → (applyLive h u).status = h.status)
        ∧ (∀ v, u.status = some v → (applyLive h u).status = v)
        ∧ (u.messages_sent = none → (applyLive h u).messages_sent = h.messages_sent)
        ∧ (∀ v, u.messages_sent = some v → (applyLive h u).messages_sent = v)
        ∧ (u.messages_failed = none → (applyLive h u).messages_failed = h.messages_failed)
        ∧ (∀ v, u.messages_failed = some v → (applyLive h u).messages_failed = v)
        ∧ (u.current_message_index = none →
            (applyLive h u).current_message_index = h.current_message_index)
        ∧ (∀ v, u.current_message_index = some v →
            (applyLive h u).current_message_index = some v)
        ∧ (u.current_message = none → (applyLive h u).current_message = h.current_message)
        ∧ (∀ v, u.current_message = some v → (applyLive h u).current_message = some v)
        ∧ (u.is_typing = none → (applyLive h u).is_typing = h.is_typing)
        ∧ (∀ v, u.is_typing = some v → (applyLive h u).is_typing = some v)
        ∧ (u.typing_progress = none → (applyLive h u).typing_progress = h.typing_progress)
        ∧ (∀ v, u.typing_progress = some v → (applyLive h u).typing_progress = some v)
        ∧ (u.last_error = none → (applyLive h u).last_error = h.last_error)
        ∧ (∀ v, u.last_error = some v → (applyLive h u).last_error = some v)
        ∧ (u.retry_count = none → (applyLive h u).retry_count = h.retry_count)
        ∧ (∀ v, u.retry_count = some v → (applyLive h u).retry_count = some v)
        ∧ (u.can_resume = none → (applyLive h u).can_resume = h.can_resume)
        ∧ (∀ v, u.can_resume = some v → (applyLive h u).can_resume = some v)
        ∧ (applyLive h u).failed_messages = h.failed_messages)
    ∧ (∀ r : DbRecord,
        (u.status = none → (applyDb r u).status = r.status)
        ∧ (∀ v, u.status = some v → (applyDb r u).status = v)
        ∧ (u.messages_sent = none → (applyDb r u).messages_sent = r.messages_sent)
        ∧ (∀ v, u.messages_sent = some v → (applyDb r u).messages_sent = v)
        ∧ (u.messages_failed = none → (applyDb r u).messages_failed = r.messages_failed)
        ∧ (∀ v, u.messages_failed = some v → (applyDb r u).messages_failed = v)
        ∧ (u.current_message_index = none →
            (applyDb r u).current_message_index = r.current_message_index)
        ∧ (∀ v, u.current_message_index = some v → (applyDb r u).current_message_index = v)
        ∧ (u.current_message = none → (applyDb r u).current_message = r.current_message)
        ∧ (∀ v, u.current_message = some v → (applyDb r u).current_message = some v)
        ∧ (u.is_typing = none → (applyDb r u).is_typing = r.is_typing)
        ∧ (∀ v, u.is_typing = some v → (applyDb r u).is_typing = v)
        ∧ (u.typing_progress = none → (applyDb r u).typing_progress = r.typing_progress)
        ∧ (∀ v, u.typing_progress = some v → (applyDb r u).typing_progress = v)
        ∧ (u.last_error = none → (applyDb r u).last_error = r.last_error)
        ∧ (∀ v, u.last_error = some v → (applyDb r u).last_error = some v)
        ∧ (u.retry_count = none → (applyDb r u).retry_count = r.retry_count)
        ∧ (∀ v, u.retry_count = some v → (applyDb r u).retry_count = v)
        ∧ (u.can_resume = none → (applyDb r u).can_resume = r.can_resume)
        ∧ (∀ v, u.can_resume = some v → (applyDb r u).can_resume = v)
        ∧ (applyDb r u).failed_messages = r.failed_messages
        ∧ (applyDb r u).channel_id = r.channel_id
        ∧ (applyDb r u).messages = r.messages
        ∧ (applyDb r u).typing_delay = r.typing_delay
        ∧ (applyDb r u).message_delay = r.message_delay
        ∧ (applyDb r u).created_at = r.created_at
        ∧ (applyDb r u).paused_at = r.paused_at
        ∧ (applyDb r u).resumed_at = r.resumed_at) := by
  refine ⟨?_, ?_, ?_, ?_⟩
  · intro hn
    simp [update_session_status, hn]
  · intro h hl
    refine ⟨?_, ?_, ?_, ?_, ?_⟩
    · simp [update_session_status, hl, lookup_updateEntry_self]
    · simp [update_session_status, hl, lookup_updateEntry_self]
    · simp [update_session_status, hl]
    · simp [update_session_status, hl]
    · intro sid' hne
      constructor
      · simp [update_session_status, hl, lookup_updateEntry_ne _ _ _ _ hne]
      · simp [update_session_status, hl, lookup_updateEntry_ne _ _ _ _ hne]
  · intro h
    refine ⟨?_, ?_, ?_, ?_, ?_, ?_, ?_, ?_, ?_, ?_, ?_, ?_, ?_, ?_, ?_, ?_, ?_, ?_, ?_, ?_, ?_⟩ <;>
      first
        | (intro v hv; simp [applyLive, hv])
        | (intro hv; simp [applyLive, hv])
        | simp [applyLive]
  · intro r
    refine ⟨?_, ?_, ?_, ?_, ?_, ?_, ?_, ?_, ?_, ?_, ?_, ?_, ?_, ?_, ?_, ?_, ?_, ?_, ?_, ?_,
            ?_, ?_, ?_, ?_, ?_, ?_, ?_, ?_⟩ <;>
      first
        | (intro v hv; simp [applyDb, hv])
        | (intro hv; simp [applyDb, hv])
        | simp [applyDb]

theorem c9_update_session_status_frame_witness :
    lookup (update_session_status runningPairState "s1"
        { messages_sent := some 7 }).active_sessions "s1"
      = some (applyLive { status := "running", messages_sent := 2, messages_failed := 0 }
          { messages_sent := some 7 })
    ∧ (update_session_status runningPairState "s1" { messages_sent := some 7 }).events
      = runningPairState.events ++
          [Event.session_update "s1" { messages_sent := some 7 }] := by
  have hc := (c9_update_session_status_frame runningPairState "s1"
      { messages_sent := some 7 }).2.1
      { status := "running", messages_sent := 2, messages_failed := 0 } (by decide)
  exact ⟨hc.1, hc.2.2.1⟩

theorem length_filter_or_le (l : List Nat) (f g : Nat → Bool) :
    (l.filter (fun i => f i || g i)).length ≤ (l.filter f).length + (l.filter g).length := by
  induction l with
  | nil => simp
  | cons a t ih =>
    cases hf : f a <;> cases hg : g a <;>
      simp [List.filter_cons, hf, hg] <;> omega

theorem length_filter_mod_eq (c : Nat) (hc : 1 ≤ c) (L : Nat) :
    ((List.range L).filter (fun i => i % c = 0)).length = (L + c - 1) / c := by
  induction L with
  | zero =>
    simp [Nat.div_eq_of_lt (by omega : c - 1 < c)]
  | succ L ih =>
    rw [List.range_succ, List.filter_append, List.length_append, ih]
    have h1 : L + 1 + c - 1 = (L + c - 1) + 1 := by omega
    have h2 : (L + c - 1) + 1 = L + c := by omega
    by_cases hdvd : L % c = 0
    · have hcd : c ∣ (L + c - 1) + 1 := by
        rw [h2]; exact Nat.dvd_add (Nat.dvd_of_mod_eq_zero hdvd) dvd_rfl
      rw [h1, Nat.succ_div]
      simp [hdvd, hcd]
    · have hnd : ¬ c ∣ (L + c - 1) + 1 := by
        rw [h2]
        intro hd
        have hL : c ∣ L := by
          have h3 := Nat.dvd_sub' hd (dvd_refl c)
          simpa using h3
        obtain ⟨k, rfl⟩ := hL
        exact hdvd (Nat.mul_mod_right c k)
      rw [h1, Nat.succ_div]
      simp [hdvd, hnd]

theorem length_filter_eq_le (L x : Nat) :
    ((List.range L).filter (fun i => i = x)).length ≤ 1 := by
  induction L with
  | zero => simp
  | succ n ih =>
    rw [List.range_succ, List.filter_append, List.length_append]
    by_cases hx : n = x
    · subst hx
      have h0 : (List.range n).filter (fun i => i = n) = [] := by
        rw [List.filter_eq_nil_iff]
        intro a ha
        simp only [decide_eq_true_eq]
        exact Nat.ne_of_lt (List.mem_range.mp ha)
      simp [h0]
    · simp [hx]
      exact ih

theorem typing_update_count_le (L : Nat) :
    typing_update_count L
      ≤ (L + chars_per_update L - 1) / chars_per_update L + 1 := by
  unfold typing_update_count typing_update_indices
  have hsplit : (fun i => decide (i % chars_per_update L = 0 ∨ i = L - 1))
      = fun i => (decide (i % chars_per_update L = 0) || decide (i = L - 1)) := by
    funext i
    by_cases hp : i % chars_per_update L = 0 <;> by_cases hq : i = L - 1 <;> simp [hp, hq]
  rw [hsplit]
  have h1 := length_filter_or_le (List.range L)
    (fun i => decide (i % chars_per_update L = 0)) (fun i => decide (i = L - 1))
  have h2 := length_filter_mod_eq (chars_per_update L)
    (le_max_left 1 (L / 10)) L
  have h3 := length_filter_eq_le L (L - 1)
  omega

theorem typing_update_count_small (L : Nat) (hL : L ≤ 19) :
    typing_update_count L = L := by
  have hcpu : chars_per_update L = 1 := by
    unfold chars_per_update
    exact Nat.max_eq_left (by omega)
  unfold typing_update_count typing_update_indices
  rw [hcpu]
  simp [Nat.mod_one]

/-- C8 (counterexample): a 19-character message gets a progress update
at every character: `chars_per_update = max(1, 19 // 10) = 1`, so 19
updates are emitted — one per character, not ≈10. -/
theorem c8_typing_cadence_counterexample :
    typing_update_count 19 = 19 ∧ chars_per_update 19 = 1 := by
  decide

/-- C8 (amended): the cadence is bounded, but not by ≈10 independent
of length: for any non-empty message at most 19 progress updates are
emitted (at most 16 once the message has at least 20 characters), and
messages of 10-19 characters get exactly one update per character. -/
theorem c8_typing_cadence_amended (L : Nat) (hL : 1 ≤ L) :
    typing_update_count L ≤ 19
    ∧ (20 ≤ L → typing_update_count L ≤ 16)
    ∧ (10 ≤ L → L ≤ 19 → typing_update_count L = L) := by
  have hbig : 20 ≤ L → typing_update_count L ≤ 16 := by
    intro h20
    have hcpu : chars_per_update L = L / 10 := by
      unfold chars_per_update
      exact Nat.max_eq_right (by omega)
    have hc2 : 2 ≤ L / 10 := by omega
    have hub : L ≤ 10 * (L / 10) + 9 := by omega
    have hkey := typing_update_count_le L
    rw [hcpu] at hkey
    have h1 : L + L / 10 - 1 ≤ 11 * (L / 10) + 8 := by omega
    have h2 : (L + L / 10 - 1) / (L / 10) ≤ (11 * (L / 10) + 8) / (L / 10) :=
      Nat.div_le_div_right h1
    have h3 : (11 * (L / 10) + 8) / (L / 10) < 16 := by
      rw [Nat.div_lt_iff_lt_mul (by omega : 0 < L / 10)]
      omega
    omega
  refine ⟨?_, hbig, ?_⟩
  · by_cases hsm : L ≤ 19
    · rw [typing_update_count_small L hsm]; omega
    · have := hbig (by omega)
      omega
  · intro _ h19
    exact typing_update_count_small L h19

theorem c8_typing_cadence_amended_witness :
    typing_update_count 25 ≤ 19
    ∧ (20 ≤ 25 → typing_update_count 25 ≤ 16)
    ∧ (10 ≤ 25 → 25 ≤ 19 → typing_update_count 25 = 25) :=
  c8_typing_cadence_amended 25 (by decide)

theorem lookup_append_single_ne {α : Type} (l : List (String × α)) (k k' : String) (v : α)
    (hne : k ≠ k') : lookup (l ++ [(k', v)]) k = lookup l k := by
  induction l with
  | nil => simp [lookup, List.find?, Ne.symm hne]
  | cons p rest ih =>
    by_cases hp : p.1 = k
    · simp [lookup, List.find?, hp]
    · unfold lookup at ih ⊢
      rw [List.cons_append, List.find?_cons_of_neg _ (by simpa using hp),
        List.find?_cons_of_neg _ (by simpa using hp)]
      exact ih

theorem frameAt_rfl (sid : String) (s : ServerState) : FrameAt sid s s :=
  ⟨rfl, rfl, rfl⟩

theorem frameAt_trans {sid : String} {s s' s'' : ServerState}
    (h1 : FrameAt sid s s') (h2 : FrameAt sid s' s'') : FrameAt sid s s'' :=
  ⟨h2.1.trans h1.1, h2.2.1.trans h1.2.1, h2.2.2.trans h1.2.2⟩

theorem liveUpdateStep_frame (s : ServerState) (sid' : String) (w : WorkerState)
    (u : UpdateData) (pc : WorkerPC) (sid : String) (hne : sid ≠ sid') :
    FrameAt sid s (liveUpdateStep s sid' w u pc) := by
  unfold liveUpdateStep FrameAt
  by_cases hs : (lookup s.active_sessions sid').isSome <;>
    simp [hs, lookup_setEntry_ne _ _ _ _ hne, lookup_updateEntry_ne _ _ _ _ hne]

theorem dbUpdateStep_frame (s : ServerState) (sid' : String) (w w' : WorkerState)
    (sid : String) (hne : sid ≠ sid') :
    FrameAt sid s (dbUpdateStep s sid' w w') := by
  unfold dbUpdateStep FrameAt
  cases w.pending <;>
    simp [lookup_setEntry_ne _ _ _ _ hne, lookup_updateEntry_ne _ _ _ _ hne]

theorem teardownWorker_frame (s : ServerState) (sid' : String) (w : WorkerState)
    (sid : String) (hne : sid ≠ sid') :
    FrameAt sid s (teardownWorker s sid' w) := by
  unfold teardownWorker FrameAt
  simp [lookup_setEntry_ne _ _ _ _ hne]

theorem errorBlock_frame (s : ServerState) (sid' : String) (w : WorkerState)
    (h : LiveHandle) (msg : String) (sid : String) (hne : sid ≠ sid') :
    FrameAt sid s (errorBlock s sid' w h msg) :=
  liveUpdateStep_frame s sid' w _ _ sid hne

theorem emitBlock_frame (s : ServerState) (sid' : String) (w : WorkerState) (i : Nat)
    (sid : String) (hne : sid ≠ sid') :
    FrameAt sid s (emitBlock s sid' w i) :=
  liveUpdateStep_frame s sid' w _ _ sid hne

theorem loopHead_frame (s : ServerState) (sid' : String) (w : WorkerState)
    (h : LiveHandle) (i : Nat) (sid : String) (hne : sid ≠ sid') :
    FrameAt sid s (loopHead s sid' w h i) := by
  unfold loopHead
  split
  · split
    · exact liveUpdateStep_frame s sid' w _ _ sid hne
    · exact emitBlock_frame s sid' w i sid hne
  · exact liveUpdateStep_frame s sid' w _ _ sid hne

theorem discord_automation_step_frame (s : ServerState) (sid' sid : String)
    (hne : sid ≠ sid') :
    FrameAt sid s (discord_automation_step s sid') := by
  unfold discord_automation_step
  cases hw : lookup s.workers sid' with
  | none => exact frameAt_rfl sid s
  | some w =>
    dsimp only
    by_cases hdead : w.pc = WorkerPC.dead
    · simp only [hdead, if_pos rfl]
      exact frameAt_rfl sid s
    · rw [if_neg hdead]
      by_cases hcanc : w.cancelled = true
      · rw [if_pos hcanc]
        exact teardownWorker_frame s sid' w sid hne
      · rw [if_neg hcanc]
        cases hh : lookup s.active_sessions sid' with
        | none => exact frameAt_rfl sid s
        | some h =>
          dsimp only
          cases hpc : w.pc with
          | launch => exact liveUpdateStep_frame s sid' _ _ _ sid hne
          | wflDb => exact dbUpdateStep_frame s sid' w _ sid hne
          | loginWait =>
            dsimp only
            by_cases henv : w.env.loginOk = true
            · simp only [henv, if_pos rfl]
              exact ⟨rfl, rfl, by simp [lookup_setEntry_ne _ _ _ _ hne]⟩
            · rw [if_neg henv]
              exact errorBlock_frame s sid' w h _ sid hne
          | inputWait =>
            dsimp only
            by_cases henv : w.env.inputOk = true
            · simp only [henv, if_pos rfl]
              exact liveUpdateStep_frame s sid' w _ _ sid hne
            · rw [if_neg henv]
              exact errorBlock_frame s sid' w h _ sid hne
          | runningDb => exact dbUpdateStep_frame s sid' w _ sid hne
          | loopEntry => exact loopHead_frame s sid' w h _ sid hne
          | emitDb i => exact dbUpdateStep_frame s sid' w _ sid hne
          | midSend i =>
            dsimp only
            by_cases hok : w.env.outcomes.getD i true = true
            · simp only [hok, if_pos rfl]
              exact frameAt_trans (⟨rfl, rfl, rfl⟩ : FrameAt sid s _)
                (liveUpdateStep_frame _ sid' w _ _ sid hne)
            · rw [if_neg hok]
              exact ⟨by simp [lookup_updateEntry_ne _ _ _ _ hne], rfl,
                by simp [lookup_setEntry_ne _ _ _ _ hne]⟩
          | sentDb i => exact dbUpdateStep_frame s sid' w _ sid hne
          | failDb i =>
            cases hp : w.pending with
            | some u =>
              exact ⟨rfl, by simp [lookup_updateEntry_ne _ _ _ _ hne],
                by simp [lookup_setEntry_ne _ _ _ _ hne]⟩
            | none =>
              exact ⟨rfl, rfl, by simp [lookup_setEntry_ne _ _ _ _ hne]⟩
          | sleep i => exact loopHead_frame s sid' w h _ sid hne
          | pausedNoteDb i => exact dbUpdateStep_frame s sid' w _ sid hne
          | pausedWait i =>
            dsimp only
            by_cases hps : h.status = "paused"
            · simp only [hps, if_pos rfl]
              exact frameAt_rfl sid s
            · rw [if_neg hps]
              by_cases hnr : h.status ≠ "running"
              · rw [if_pos hnr]
                exact liveUpdateStep_frame s sid' w _ _ sid hne
              · rw [if_neg hnr]
                exact emitBlock_frame s sid' w i sid hne
          | completedDb => exact dbUpdateStep_frame s sid' w _ sid hne
          | errDb =>
            cases hp : w.pending with
            | some u =>
              exact ⟨rfl, by simp [lookup_updateEntry_ne _ _ _ _ hne],
                by simp [lookup_setEntry_ne _ _ _ _ hne]⟩
            | none =>
              exact ⟨rfl, rfl, by simp [lookup_setEntry_ne _ _ _ _ hne]⟩
          | closing =>
            exact ⟨rfl, rfl, by simp [lookup_setEntry_ne _ _ _ _ hne]⟩
          | dead => exact absurd hpc hdead

theorem start_frame (s : ServerState) (sid' : String) (req : StartReq) (env : WorkerEnv)
    (sid : String) (hne : sid ≠ sid') :
    FrameAt sid s (start_auto_typer_session s sid' req env).2 := by
  unfold start_auto_typer_session FrameAt
  exact ⟨by simp [lookup_setEntry_ne _ _ _ _ hne],
    by simp [lookup_append_single_ne _ _ _ _ hne],
    by simp [lookup_setEntry_ne _ _ _ _ hne]⟩

theorem stop_frame (s : ServerState) (sid' sid : String) (hne : sid ≠ sid') :
    FrameAt sid s (stop_auto_typer_session s sid').2 := by
  unfold stop_auto_typer_session
  cases hl : lookup s.active_sessions sid' with
  | none => exact frameAt_rfl sid s
  | some h =>
    dsimp only
    exact ⟨by simp [lookup_updateEntry_ne _ _ _ _ hne],
      by simp [lookup_updateEntry_ne _ _ _ _ hne],
      by simp [lookup_updateEntry_ne _ _ _ _ hne]⟩

theorem pause_frame (s : ServerState) (sid' sid : String) (hne : sid ≠ sid') :
    FrameAt sid s (pause_auto_typer_session s sid').2 := by
  unfold pause_auto_typer_session
  cases hl : lookup s.active_sessions sid' with
  | none => exact frameAt_rfl sid s
  | some h =>
    dsimp only
    by_cases hr : h.status = "running"
    · rw [if_pos hr]
      exact ⟨by simp [lookup_updateEntry_ne _ _ _ _ hne],
        by simp [lookup_updateEntry_ne _ _ _ _ hne], rfl⟩
    · rw [if_neg hr]
      exact frameAt_rfl sid s

theorem resume_frame (s : ServerState) (sid' : String) (env : WorkerEnv) (sid : String)
    (hne : sid ≠ sid') : FrameAt sid s (resume_auto_typer_session s sid' env).2 := by
  unfold resume_auto_typer_session
  cases hl : lookup s.active_sessions sid' with
  | some h =>
    dsimp only
    by_cases hp : h.status = "paused"
    · rw [if_pos hp]
      exact ⟨by simp [lookup_updateEntry_ne _ _ _ _ hne],
        by simp [lookup_updateEntry_ne _ _ _ _ hne], rfl⟩
    · rw [if_neg hp]
      exact frameAt_rfl sid s
  | none =>
    dsimp only
    cases hd : lookup s.db_sessions sid' with
    | some r =>
      dsimp only
      by_cases hc : r.can_resume = true
      · rw [if_pos hc]
        exact ⟨by simp [lookup_setEntry_ne _ _ _ _ hne], rfl,
          by simp [lookup_setEntry_ne _ _ _ _ hne]⟩
      · rw [if_neg hc]
        exact frameAt_rfl sid s
    | none => exact frameAt_rfl sid s

theorem retry_frame (s : ServerState) (sid' sid : String) (hne : sid ≠ sid') :
    FrameAt sid s (retry_failed_messages s sid').2 := by
  unfold retry_failed_messages
  cases hl : lookup s.active_sessions sid' with
  | none => exact frameAt_rfl sid s
  | some h =>
    dsimp only
    by_cases he : (h.failed_messages.getD []).isEmpty = true
    · rw [if_pos he]
      exact frameAt_rfl sid s
    · rw [if_neg he]
      cases hrc : h.retry_count with
      | none =>
        dsimp only
        exact ⟨by simp [lookup_updateEntry_ne _ _ _ _ hne], rfl, rfl⟩
      | some rc =>
        dsimp only
        exact ⟨by simp [lookup_updateEntry_ne _ _ _ _ hne],
          by simp [lookup_updateEntry_ne _ _ _ _ hne], rfl⟩

theorem stepAction_frame (s : ServerState) (a : Action) (sid : String)
    (hne : sid ≠ actionSid a) : FrameAt sid s (stepAction s a) := by
  cases a with
  | start sid' req env => exact start_frame s sid' req env sid hne
  | stop sid' => exact stop_frame s sid' sid hne
  | pause sid' => exact pause_frame s sid' sid hne
  | resume sid' env => exact resume_frame s sid' env sid hne
  | retry sid' => exact retry_frame s sid' sid hne
  | query sid' => exact frameAt_rfl sid s
  | workerStep sid' => exact discord_automation_step_frame s sid' sid hne

theorem stoppedInv_of_frame (sid : String) (d : Nat) (s s' : ServerState)
    (hf : FrameAt sid s s') (hInv : StoppedInv sid d s) : StoppedInv sid d s' := by
  obtain ⟨⟨h, hl, hs⟩, ⟨w, hw, hc, hd, hbr⟩, hdb⟩ := hInv
  exact ⟨⟨h, hf.1.trans hl, hs⟩, ⟨w, hf.2.2.trans hw, hc, hd, hbr⟩,
    fun r hr => hdb r (hf.2.1.symm.trans hr)⟩

theorem stoppedDead_of_frame (sid : String) (d : Nat) (s s' : ServerState)
    (hf : FrameAt sid s s') (hInv : StoppedDead sid d s) : StoppedDead sid d s' := by
  obtain ⟨⟨h, hl, hs⟩, ⟨w, hw, hrest⟩, hdb⟩ := hInv
  exact ⟨⟨h, hf.1.trans hl, hs⟩, ⟨w, hf.2.2.trans hw, hrest⟩,
    fun r hr => hdb r (hf.2.1.symm.trans hr)⟩

theorem pause_stopped_noop (s : ServerState) (sid : String) (h : LiveHandle)
    (hl : lookup s.active_sessions sid = some h) (hs : h.status ≠ "running") :
    (pause_auto_typer_session s sid).2 = s := by
  unfold pause_auto_typer_session
  rw [hl]
  dsimp only
  rw [if_neg hs]

theorem resume_not_paused_noop (s : ServerState) (sid : String) (env : WorkerEnv)
    (h : LiveHandle) (hl : lookup s.active_sessions sid = some h)
    (hs : h.status ≠ "paused") :
    (resume_auto_typer_session s sid env).2 = s := by
  unfold resume_auto_typer_session
  rw [hl]
  dsimp only
  rw [if_neg hs]

theorem retry_target_frame (s : ServerState) (sid : String) (h : LiveHandle)
    (hl : lookup s.active_sessions sid = some h) :
    (retry_failed_messages s sid).2.workers = s.workers
    ∧ (lookup (retry_failed_messages s sid).2.active_sessions sid).map (fun h' => h'.status)
        = some h.status
    ∧ (∀ r' : DbRecord, lookup (retry_failed_messages s sid).2.db_sessions sid = some r' →
        ∃ r : DbRecord, lookup s.db_sessions sid = some r ∧ r'.status = r.status) := by
  unfold retry_failed_messages
  rw [hl]
  dsimp only
  by_cases he : (h.failed_messages.getD []).isEmpty = true
  · rw [if_pos he]
    exact ⟨rfl, by rw [hl]; rfl, fun r' hr' => ⟨r', hr', rfl⟩⟩
  · rw [if_neg he]
    cases hrc : h.retry_count with
    | none =>
      dsimp only
      refine ⟨rfl, ?_, fun r' hr' => ⟨r', hr', rfl⟩⟩
      rw [lookup_updateEntry_self, hl]
      rfl
    | some rc =>
      dsimp only
      refine ⟨rfl, ?_, ?_⟩
      · rw [lookup_updateEntry_self, lookup_updateEntry_self, hl]
        rfl
      · intro r' hr'
        rw [lookup_updateEntry_self] at hr'
        cases hq : lookup s.db_sessions sid with
        | none => rw [hq] at hr'; simp at hr'
        | some r =>
          rw [hq] at hr'
          simp at hr'
          exact ⟨r, rfl, by rw [← hr']⟩

theorem workerStep_cancelled (s : ServerState) (sid : String) (w : WorkerState)
    (hw : lookup s.workers sid = some w) (hc : w.cancelled = true) :
    discord_automation_step s sid
      = if w.pc = WorkerPC.dead then s else teardownWorker s sid w := by
  unfold discord_automation_step
  rw [hw]
  dsimp only
  by_cases hdead : w.pc = WorkerPC.dead
  · rw [if_pos hdead, if_pos hdead]
  · rw [if_neg hdead, if_neg hdead, if_pos hc]

theorem stoppedInv_preserve (sid : String) (d : Nat) (s : ServerState) (a : Action)
    (hInv : StoppedInv sid d s) (hns : ∀ req env, a ≠ Action.start sid req env) :
    StoppedInv sid d (stepAction s a) := by
  by_cases hsid : actionSid a = sid
  case neg =>
    exact stoppedInv_of_frame sid d s _
      (stepAction_frame s a sid (fun he => hsid he.symm)) hInv
  case pos =>
    obtain ⟨⟨h, hl, hs⟩, ⟨w, hw, hc, hd, hbr⟩, hdb⟩ := hInv
    have hInv' : StoppedInv sid d s := ⟨⟨h, hl, hs⟩, ⟨w, hw, hc, hd, hbr⟩, hdb⟩
    cases a with
    | start sid' req env =>
      simp only [actionSid] at hsid
      subst hsid
      exact absurd rfl (hns req env)
    | query sid' => exact hInv'
    | pause sid' =>
      simp only [actionSid] at hsid
      subst hsid
      have hnoop := pause_stopped_noop s sid' h hl (by rw [hs]; decide)
      exact (hnoop.symm ▸ hInv' : StoppedInv sid' d (pause_auto_typer_session s sid').2)
    | resume sid' env =>
      simp only [actionSid] at hsid
      subst hsid
      have hnoop := resume_not_paused_noop s sid' env h hl (by rw [hs]; decide)
      exact (hnoop.symm ▸ hInv' : StoppedInv sid' d (resume_auto_typer_session s sid' env).2)
    | retry sid' =>
      simp only [actionSid] at hsid
      subst hsid
      show StoppedInv sid' d (retry_failed_messages s sid').2
      obtain ⟨hwk, hact, hdbf⟩ := retry_target_frame s sid' h hl
      obtain ⟨h', hh', hsh'⟩ := Option.map_eq_some'.mp hact
      refine ⟨⟨h', hh', hsh'.trans hs⟩, ⟨w, by rw [hwk]; exact hw, hc, hd, hbr⟩, ?_⟩
      intro r' hr'
      obtain ⟨r, hr, hst⟩ := hdbf r' hr'
      rw [hst]
      exact hdb r hr
    | stop sid' =>
      simp only [actionSid] at hsid
      subst hsid
      show StoppedInv sid' d (stop_auto_typer_session s sid').2
      unfold stop_auto_typer_session
      rw [hl]
      dsimp only
      refine ⟨⟨{ h with status := "stopped" }, ?_, rfl⟩,
        ⟨{ w with cancelled := true }, ?_, rfl, hd, ?_⟩, ?_⟩
      · rw [lookup_updateEntry_self, hl]
        rfl
      · rw [lookup_updateEntry_self, hw]
        rfl
      · rcases hbr with ⟨h1, h2, h3⟩ | ⟨h1, h2, h3⟩
        · exact Or.inl ⟨h1, h2, h3⟩
        · exact Or.inr ⟨h1, h2, h3⟩
      · intro r' hr'
        rw [lookup_updateEntry_self] at hr'
        cases hq : lookup s.db_sessions sid' with
        | none => rw [hq] at hr'; simp at hr'
        | some r =>
          rw [hq] at hr'
          simp at hr'
          rw [← hr']
    | workerStep sid' =>
      simp only [actionSid] at hsid
      subst hsid
      show StoppedInv sid' d (discord_automation_step s sid')
      rw [workerStep_cancelled s sid' w hw hc]
      by_cases hdead : w.pc = WorkerPC.dead
      · rw [if_pos hdead]
        exact hInv'
      · rw [if_neg hdead]
        unfold teardownWorker
        refine ⟨⟨h, hl, hs⟩, ?_, hdb⟩
        rcases hbr with ⟨_, h2, h3⟩ | ⟨h1, _, _⟩
        · refine ⟨_, lookup_setEntry_self _ _ _, hc, hd, Or.inr ⟨rfl, rfl, ?_⟩⟩
          rw [h2, h3]
          simp
        · exact absurd h1 hdead

theorem stoppedDead_preserve (sid : String) (d : Nat) (s : ServerState) (a : Action)
    (hInv : StoppedDead sid d s) (hns : ∀ req env, a ≠ Action.start sid req env) :
    StoppedDead sid d (stepAction s a) := by
  by_cases hsid : actionSid a = sid
  case neg =>
    exact stoppedDead_of_frame sid d s _
      (stepAction_frame s a sid (fun he => hsid he.symm)) hInv
  case pos =>
    obtain ⟨⟨h, hl, hs⟩, ⟨w, hw, hc, hd, hpc, hbo, hcl⟩, hdb⟩ := hInv
    have hInv' : StoppedDead sid d s := ⟨⟨h, hl, hs⟩, ⟨w, hw, hc, hd, hpc, hbo, hcl⟩, hdb⟩
    cases a with
    | start sid' req env =>
      simp only [actionSid] at hsid
      subst hsid
      exact absurd rfl (hns req env)
    | query sid' => exact hInv'
    | pause sid' =>
      simp only [actionSid] at hsid
      subst hsid
      have hnoop := pause_stopped_noop s sid' h hl (by rw [hs]; decide)
      exact (hnoop.symm ▸ hInv' : StoppedDead sid' d (pause_auto_typer_session s sid').2)
    | resume sid' env =>
      simp only [actionSid] at hsid
      subst hsid
      have hnoop := resume_not_paused_noop s sid' env h hl (by rw [hs]; decide)
      exact (hnoop.symm ▸ hInv' : StoppedDead sid' d (resume_auto_typer_session s sid' env).2)
    | retry sid' =>
      simp only [actionSid] at hsid
      subst hsid
      show StoppedDead sid' d (retry_failed_messages s sid').2
      obtain ⟨hwk, hact, hdbf⟩ := retry_target_frame s sid' h hl
      obtain ⟨h', hh', hsh'⟩ := Option.map_eq_some'.mp hact
      refine ⟨⟨h', hh', hsh'.trans hs⟩,
        ⟨w, by rw [hwk]; exact hw, hc, hd, hpc, hbo, hcl⟩, ?_⟩
      intro r' hr'
      obtain ⟨r, hr, hst⟩ := hdbf r' hr'
      rw [hst]
      exact hdb r hr
    | stop sid' =>
      simp only [actionSid] at hsid
      subst hsid
      show StoppedDead sid' d (stop_auto_typer_session s sid').2
      unfold stop_auto_typer_session
      rw [hl]
      dsimp only
      refine ⟨⟨{ h with status := "stopped" }, ?_, rfl⟩,
        ⟨{ w with cancelled := true }, ?_, rfl, hd, hpc, hbo, hcl⟩, ?_⟩
      · rw [lookup_updateEntry_self, hl]
        rfl
      · rw [lookup_updateEntry_self, hw]
        rfl
      · intro r' hr'
        rw [lookup_updateEntry_self] at hr'
        cases hq : lookup s.db_sessions sid' with
        | none => rw [hq] at hr'; simp at hr'
        | some r =>
          rw [hq] at hr'
          simp at hr'
          rw [← hr']
    | workerStep sid' =>
      simp only [actionSid] at hsid
      subst hsid
      show StoppedDead sid' d (discord_automation_step s sid')
      rw [workerStep_cancelled s sid' w hw hc, if_pos hpc]
      exact hInv'

theorem stoppedInv_to_dead (sid : String) (d : Nat) (s : ServerState)
    (hInv : StoppedInv sid d s) :
    StoppedDead sid d (stepAction s (Action.workerStep sid)) := by
  obtain ⟨⟨h, hl, hs⟩, ⟨w, hw, hc, hd, hbr⟩, hdb⟩ := hInv
  show StoppedDead sid d (discord_automation_step s sid)
  rw [workerStep_cancelled s sid w hw hc]
  by_cases hdead : w.pc = WorkerPC.dead
  · rw [if_pos hdead]
    rcases hbr with ⟨h1, _, _⟩ | ⟨_, h2, h3⟩
    · exact absurd hdead h1
    · exact ⟨⟨h, hl, hs⟩, ⟨w, hw, hc, hd, hdead, h2, h3⟩, hdb⟩
  · rw [if_neg hdead]
    unfold teardownWorker
    rcases hbr with ⟨_, h2, h3⟩ | ⟨h1, _, _⟩
    · refine ⟨⟨h, hl, hs⟩,
        ⟨_, lookup_setEntry_self _ _ _, hc, hd, rfl, rfl, ?_⟩, hdb⟩
      rw [h2, h3]
      simp
    · exact absurd h1 hdead

theorem stoppedDead_run (sid : String) (d : Nat) (acts : List Action)
    (hno : ∀ req env, Action.start sid req env ∉ acts) :
    ∀ s : ServerState, StoppedDead sid d s → StoppedDead sid d (run s acts) := by
  induction acts with
  | nil => intro s hs; exact hs
  | cons a rest ih =>
    intro s hs
    have hno' : ∀ req env, Action.start sid req env ∉ rest := fun req env hm =>
      hno req env (List.mem_cons_of_mem a hm)
    have hna : ∀ req env, a ≠ Action.start sid req env := fun req env he =>
      hno req env (he ▸ List.mem_cons_self a rest)
    exact ih hno' _ (stoppedDead_preserve sid d s a hs hna)

theorem stoppedInv_run (sid : String) (d : Nat) (acts : List Action)
    (hno : ∀ req env, Action.start sid req env ∉ acts) :
    ∀ s : ServerState, StoppedInv sid d s →
      StoppedInv sid d (run s acts)
      ∧ (Action.workerStep sid ∈ acts → StoppedDead sid d (run s acts)) := by
  induction acts with
  | nil =>
    intro s hs
    exact ⟨hs, fun hm => absurd hm (List.not_mem_nil _)⟩
  | cons a rest ih =>
    intro s hs
    have hno' : ∀ req env, Action.start sid req env ∉ rest := fun req env hm =>
      hno req env (List.mem_cons_of_mem a hm)
    have hna : ∀ req env, a ≠ Action.start sid req env := fun req env he =>
      hno req env (he ▸ List.mem_cons_self a rest)
    have hstep := stoppedInv_preserve sid d s a hs hna
    refine ⟨(ih hno' _ hstep).1, ?_⟩
    intro hm
    by_cases ha : a = Action.workerStep sid
    · subst ha
      exact stoppedDead_run sid d rest hno' _ (stoppedInv_to_dead sid d s hs)
    · have hm' : Action.workerStep sid ∈ rest := by
        rcases List.mem_cons.mp hm with h1 | h2
        · exact absurd h1.symm ha
        · exact h2
      exact (ih hno' _ hstep).2 hm'

/-- C4: `stop(id)` returns the not-found error when `id` has no live
handle; otherwise (for a session whose worker is alive with an open
browser) it reports success and establishes `StoppedInv`: live and
persisted status `stopped`, worker cancelled with its dispatch count
frozen, browser-release pending-or-done with at most one close — and
along every continuation that does not re-start the same id the
invariant persists, so no further message is dispatched and the status
is never overwritten by a later worker transition; once the cancelled
worker is scheduled, `StoppedDead` holds: it has torn down and the
browser was closed exactly once. -/
theorem c4_stop_semantics (s : ServerState) (sid : String) :
    (lookup s.active_sessions sid = none →
      stop_auto_typer_session s sid = (Resp.err "Session not found", s))
    ∧ (∀ (h : LiveHandle) (w : WorkerState),
        lookup s.active_sessions sid = some h → lookup s.workers sid = some w →
        w.pc ≠ WorkerPC.dead → w.browserOpen = true → w.closes = 0 →
        (stop_auto_typer_session s sid).1 = Resp.ok "Session stopped successfully"
        ∧ StoppedInv sid w.dispatches (stop_auto_typer_session s sid).2
        ∧ (∀ acts : List Action, (∀ req env, Action.start sid req env ∉ acts) →
            StoppedInv sid w.dispatches (run (stop_auto_typer_session s sid).2 acts)
            ∧ (Action.workerStep sid ∈ acts →
                StoppedDead sid w.dispatches
                  (run (stop_auto_typer_session s sid).2 acts)))) := by
  constructor
  · intro hn
    unfold stop_auto_typer_session
    rw [hn]
  · intro h w hl hw hpc hbo hcl
    have hresp : (stop_auto_typer_session s sid).1
        = Resp.ok "Session stopped successfully" := by
      unfold stop_auto_typer_session
      rw [hl]
    have hinv : StoppedInv sid w.dispatches (stop_auto_typer_session s sid).2 := by
      unfold stop_auto_typer_session
      rw [hl]
      dsimp only
      refine ⟨⟨{ h with status := "stopped" },
          by rw [lookup_updateEntry_self, hl]; rfl, rfl⟩,
        ⟨{ w with cancelled := true },
          by rw [lookup_updateEntry_self, hw]; rfl, rfl, rfl,
          Or.inl ⟨hpc, hbo, hcl⟩⟩, ?_⟩
      intro r' hr'
      rw [lookup_updateEntry_self] at hr'
      cases hq : lookup s.db_sessions sid with
      | none => rw [hq] at hr'; simp at hr'
      | some r =>
        rw [hq] at hr'
        simp at hr'
        rw [← hr']
    exact ⟨hresp, hinv,
      fun acts hno => stoppedInv_run sid w.dispatches acts hno _ hinv⟩

theorem c4_stop_semantics_witness :
    (lookup (run (stop_auto_typer_session preStopState "s1").2
        [Action.workerStep "s1"]).active_sessions "s1").map (fun h => h.status)
      = some "stopped"
    ∧ (lookup (run (stop_auto_typer_session preStopState "s1").2
        [Action.workerStep "s1"]).workers "s1").map
          (fun w => (w.pc, w.closes, w.dispatches))
      = some (WorkerPC.dead, 1, 1) := by
  have hc := ((c4_stop_semantics preStopState "s1").2 preStopLive preStopWorker
      (by decide) (by decide) (by decide) (by decide) (by decide)).2.2
      [Action.workerStep "s1"]
      (by intro req env hm; simp at hm)
  have hdd := hc.2 (by simp)
  obtain ⟨⟨h', hh', hs'⟩, ⟨w', hw', _, hd', hpc', _, hcl'⟩, _⟩ := hdd
  constructor
  · rw [hh']
    simp [hs']
  · rw [hw']
    simp [hpc', hcl', hd', preStopWorker]

end DCTyper
